import Mathlib

/-!
Shallow embedding of the Bolt_Calculator repository (Python) in Lean 4.

Sources embedded:
  * src/Bolt_Calculator_v1_1/Material.py  — MaterialType, Material, __post_init__,
    mat_to_file / mats_from_file (row-level model of the CSV persistence)
  * src/calculation.py — Calculation.__post_init__, _calc_l, _calc_m_b, _calc_k_t,
    _calc_d_temp, _check, report_dict, main
  * src/Bolt_Calculator_v1_1/Bolt.py — Bolt.set_length

Modelling conventions:
  * Python floats are modelled as exact rationals (ℚ); no claim under scrutiny
    depends on binary rounding.
  * The transcendental library calls math.log10 and math.sqrt, the float
    constant math.pi, and the Excel worksheet round trips (the standardized
    size oracle) are modelled as explicit parameters in an `Env` record: the
    engine only observes their return values.
  * Python's unbounded recursion is modelled with an explicit fuel argument;
    `none` means the recursion has not produced a result within the given
    fuel (the Python run is still recursing — at interpreter limits it dies
    with RecursionError, never with any engine-specific error).
-/

/-- Embeds class MaterialType (Material.py lines 48-55). -/
inductive MaterialType where
  | STRUCTURAL_STEEL
  | HEAT_TREATABLE_STEEL
  | NITRIDING_STEEL
deriving DecidableEq, Repr

/-- Embeds dataclass Material (Material.py lines 58-101): frozen (immutable)
record with slots name, matnr, density, tensilestrength, yieldstress,
youngsmodulus, type. -/
structure Material where
  name : String
  matnr : String
  density : ℚ
  tensilestrength : ℚ
  yieldstress : ℚ
  youngsmodulus : ℚ
  type : MaterialType
deriving DecidableEq, Repr

/-- The dynamic value supplied for the `type` field at construction: Python is
untyped, so the caller may pass an actual MaterialType member or anything
else (modelled as a raw string). `Material.__post_init__` checks it with
isinstance. -/
inductive RawType where
  | known : MaterialType → RawType
  | other : String → RawType
deriving DecidableEq, Repr

/-- Embeds Material construction with its __post_init__ check
(Material.py lines 103-107): the only validation performed is
`isinstance(self.type, MaterialType)`; on failure MaterialTypeError is
raised. No numeric field (in particular not the yield stress) is checked. -/
def mkMaterial (name matnr : String) (density tensilestrength yieldstress youngsmodulus : ℚ)
    (t : RawType) : Except String Material :=
  match t with
  | .known mt =>
      .ok { name := name, matnr := matnr, density := density,
            tensilestrength := tensilestrength, yieldstress := yieldstress,
            youngsmodulus := youngsmodulus, type := mt }
  | .other s => .error ("MaterialTypeError: " ++ name ++ " has undefined material type: " ++ s)

/-- Python's str() of a MaterialType member, as written by csv.DictWriter
in mat_to_file: "MaterialType.<MEMBER_NAME>". -/
def typeStr : MaterialType → String
  | .STRUCTURAL_STEEL => "MaterialType.STRUCTURAL_STEEL"
  | .HEAT_TREATABLE_STEEL => "MaterialType.HEAT_TREATABLE_STEEL"
  | .NITRIDING_STEEL => "MaterialType.NITRIDING_STEEL"

/-- Embeds `MaterialType[name]` (enum lookup by member name) used in
mats_from_file line 253. -/
def materialTypeOfName : String → Option MaterialType
  | "STRUCTURAL_STEEL" => some .STRUCTURAL_STEEL
  | "HEAT_TREATABLE_STEEL" => some .HEAT_TREATABLE_STEEL
  | "NITRIDING_STEEL" => some .NITRIDING_STEEL
  | _ => none

/-- One CSV row of a .mat file, field by field in slot order. Numeric cells
hold the rational carried by the float: Python writes str(x) and reads
eval(str(x)), which round-trips a float exactly, so the numeric cell is
modelled by the number itself; the type cell keeps its genuine string
encoding, which is where the parsing logic lives. Byte-level file layout
(csv dialect sniffing, the r+ seek position) is abstracted. -/
structure MatRow where
  name : String
  matnr : String
  density : ℚ
  tensilestrength : ℚ
  yieldstress : ℚ
  youngsmodulus : ℚ
  typeCell : String
deriving DecidableEq, Repr

/-- Embeds the writerow(asdict(mat)) of Material.mat_to_file
(Material.py lines 195-205): one row appended with the str() of each field. -/
def serializeMat (m : Material) : MatRow :=
  { name := m.name, matnr := m.matnr, density := m.density,
    tensilestrength := m.tensilestrength, yieldstress := m.yieldstress,
    youngsmodulus := m.youngsmodulus, typeCell := typeStr m.type }

/-- Helper for `splitDot`: splits a character list at each '.', the
accumulator holding the current chunk reversed. -/
def splitDotAux : List Char → List Char → List String
  | [], acc => [String.mk acc.reverse]
  | c :: cs, acc =>
      if c = '.' then String.mk acc.reverse :: splitDotAux cs []
      else splitDotAux cs (c :: acc)

/-- Python's str.split("."), as used on the type cell in mats_from_file. -/
def splitDot (s : String) : List String :=
  splitDotAux s.data []

/-- Embeds the per-row body of Material.mats_from_file
(Material.py lines 247-256): numeric cells are eval'ed, the type cell is
split on "." and its second component looked up in MaterialType; a failed
lookup (KeyError) becomes MaterialTypeError. A type cell with no "." would
raise an uncaught IndexError in Python; modelled as a distinct error. -/
def deserializeRow (r : MatRow) : Except String Material :=
  match (splitDot r.typeCell).drop 1 with
  | [] => .error "IndexError"
  | memberName :: _ =>
      match materialTypeOfName memberName with
      | some mt =>
          .ok { name := r.name, matnr := r.matnr, density := r.density,
                tensilestrength := r.tensilestrength, yieldstress := r.yieldstress,
                youngsmodulus := r.youngsmodulus, type := mt }
      | none => .error ("MaterialTypeError: " ++ r.name ++ " has undefined material type: " ++ r.typeCell)

/-- Embeds Material.mat_to_file at the row level: the row for `mat` is
appended to the file's rows. -/
def matToFile (file : List MatRow) (mat : Material) : List MatRow :=
  file ++ [serializeMat mat]

/-- Embeds Material.mats_from_file at the row level: every row is parsed in
order, appended to the result list; the first failing row aborts the load
with its error. -/
def matsFromFile : List MatRow → Except String (List Material)
  | [] => .ok []
  | r :: rs =>
      match deserializeRow r with
      | .error e => .error e
      | .ok m =>
          match matsFromFile rs with
          | .error e => .error e
          | .ok ms => .ok (m :: ms)

/-- Embeds Calculation._calc_l (calculation.py lines 108-133): the load-type
table, returned as the triple (l[0], l[1], l[2]) = [normal, shear, pressure]. -/
def calc_l (l_type : String) : ℚ × ℚ × ℚ :=
  if l_type = "static" then (0.3, 0.2, 0.35)
  else if l_type = "pulsating" then (0.2, 0.15, 0.25)
  else (0.15, 0.1, 1)

/-- Embeds Calculation._calc_m_b (calculation.py lines 135-173): the
order-sensitive clamping-case branch table, returning (M_b, k). -/
def calc_m_b (ccase : String) (F_r t_r t_f : ℚ) (n : ℤ) : ℚ × ℚ :=
  if ccase = "Case 1" then ((F_r * (t_r + (n : ℚ) * t_f)) / 8, 1.6)
  else if ccase = "Case 2" ∧ n = 2 then ((F_r * t_r) / 8, 1.1)
  else if ccase = "Case 2" ∧ n = 1 then (F_r * t_r, 1.1)
  else if ccase = "Case 3" ∧ n = 2 then (F_r * t_f, 1.1)
  else (F_r * t_f, 1.1)

/-- The external functions the engine calls, observed only through their
return values: math.log10 and math.sqrt (float functions, modelled on ℚ),
math.pi (a float constant), the Excel diameter lookup A3→A10 of
Calculation._get_diameter, and the Excel length lookup of Bolt.set_length
(value of O10 as a function of the last trial length written to A7,
`none` before any write). -/
structure Env where
  log10 : ℚ → ℚ
  sqrt : ℚ → ℚ
  pi : ℚ
  oracle : ℚ → ℚ
  lenOracle : Option ℚ → ℚ

/-- Embeds Calculation._calc_k_t (calculation.py lines 175-207): the
size-correction factor, one formula per material class, clamped by the
if/elif chain; k_t enters as 0 (set in __post_init__) and is only
overwritten for the matched material classes (all three enum members are
matched). -/
def calc_k_t (env : Env) (matType : MaterialType) (d : ℚ) : ℚ :=
  match matType with
  | .HEAT_TREATABLE_STEEL =>
      let k_t := 1 - 0.41 * env.log10 (d / 16)
      if k_t > 1 then 1 else if k_t < 0.60 then 0.60 else k_t
  | .STRUCTURAL_STEEL =>
      let k_t := 1 - 0.23 * env.log10 (d / 100)
      if k_t > 1 then 1 else if k_t < 0.89 then 0.89 else k_t
  | .NITRIDING_STEEL =>
      let k_t := 1 - 0.23 * env.log10 (d / 100)
      if k_t > 1 then 1 else if k_t < 0.89 then 0.89 else k_t

/-- The init=True fields of dataclass Calculation (calculation.py lines
73-84): the inputs of a sizing run. The bolt is represented by its
material's type and yield stress, the only bolt attributes the formulas
read; Excel-session fields live in `Env`. -/
structure CalcIn where
  matType : MaterialType
  ys_bolt : ℚ
  l_type : String
  ccase : String
  F_r : ℚ
  t_r : ℚ
  t_f : ℚ
  n : ℤ
  K_A : ℚ
  S : ℚ
  ys_rod : ℚ
  ys_fork : ℚ
deriving Repr

/-- The state right after Calculation.__post_init__: the inputs plus the
derived load factors, bending moment and clamping factor. -/
structure CalcSt extends CalcIn where
  l : ℚ × ℚ × ℚ
  M_b : ℚ
  k : ℚ
deriving Repr

/-- Embeds Calculation.__post_init__ (calculation.py lines 94-106):
_calc_l, then _calc_m_b on the force AS SUPPLIED, and only afterwards the
sign normalization `if self._F_r < 0: self._F_r = self._F_r * (-1)`. -/
def postInit (c : CalcIn) : CalcSt :=
  let l := calc_l c.l_type
  let mbk := calc_m_b c.ccase c.F_r c.t_r c.t_f c.n
  let F_r := if c.F_r < 0 then c.F_r * (-1) else c.F_r
  { toCalcIn := { c with F_r := F_r }, l := l, M_b := mbk.1, k := mbk.2 }

/-- Embeds Calculation._calc_d_temp (calculation.py lines 209-243):
the initial diameter estimate. -/
def calc_d_temp (env : Env) (c : CalcSt) : ℚ :=
  c.k * env.sqrt ((c.K_A * c.F_r * c.S) / (c.l.1 * c.ys_bolt))

/-- Outcome of one verification pass of Calculation._check: which safety
check (if any) triggered the bump-and-restart. -/
inductive CheckOutcome where
  | bendFail
  | shearFail
  | pressFail
  | allPass
deriving DecidableEq, Repr

/-- One pass of Calculation._check (calculation.py lines 254-321) at
diameter d: k_t, then the bending, shear and pressure comparisons in
source order, stopping at the first failed one. -/
def checkOnce (env : Env) (c : CalcSt) (yieldstress_min d : ℚ) : CheckOutcome :=
  let k_t := calc_k_t env c.matType d
  let sigma_max := k_t * c.ys_bolt * c.l.1
  let sigma := (c.K_A * c.M_b * 32) / (env.pi * d ^ 3)
  if sigma_max / c.S ≤ sigma then CheckOutcome.bendFail
  else
    let tau_max := k_t * c.ys_bolt * c.l.2.1
    let tau := 4 / 3 * (c.K_A * c.F_r) / (env.pi * (d ^ 2 / 4) * 2)
    if tau_max / c.S ≤ tau then CheckOutcome.shearFail
    else
      let p_max := k_t * yieldstress_min * c.l.2.2
      let p_f := (c.K_A * c.F_r) / (d * (c.n : ℚ) * c.t_f)
      let p_r := (c.K_A * c.F_r) / (d * c.t_r)
      if p_max / c.S ≤ p_f ∧ p_max * c.S ≤ p_r then CheckOutcome.pressFail
      else CheckOutcome.allPass

/-- Embeds the recursion of Calculation._check with explicit fuel: on any
failed check the diameter is bumped to _get_diameter(d+1) — the oracle's
standardization of d+1 — and _check recurses on it; the Python original
has NO other exit and no iteration bound, so exhausted fuel (`none`)
means the Python call is still recursing. -/
def check (env : Env) (c : CalcSt) (yieldstress_min : ℚ) : Nat → ℚ → Option ℚ
  | 0, _ => none
  | fuel + 1, d =>
      match checkOnce env c yieldstress_min d with
      | .allPass => some d
      | _ => check env c yieldstress_min fuel (env.oracle (d + 1))

/-- The candidate diameters visited by `check`, first to last. -/
def checkTrace (env : Env) (c : CalcSt) (yieldstress_min : ℚ) : Nat → ℚ → List ℚ
  | 0, d => [d]
  | fuel + 1, d =>
      match checkOnce env c yieldstress_min d with
      | .allPass => [d]
      | _ => d :: checkTrace env c yieldstress_min fuel (env.oracle (d + 1))

/-- Embeds Bolt.set_length (Bolt.py lines 109-146) with explicit fuel:
i is incremented, O10 is read for the last trial length written to A7;
a 0 answer computes the trial length t_r + n*t_f + i, writes it to A7 and
recurses; a non-zero answer is the final length. The Python original has
no retry bound, so exhausted fuel (`none`) means it is still recursing. -/
def setLength (env : Env) (n : ℤ) (t_r t_f : ℚ) : Nat → ℤ → Option ℚ → Option ℚ
  | 0, _, _ => none
  | fuel + 1, i, lastTrial =>
      let i := i + 1
      let length := env.lenOracle lastTrial
      if length = 0 then
        let trial := t_r + (n : ℚ) * t_f + (i : ℚ)
        setLength env n t_r t_f fuel i (some trial)
      else some length

/-- The Bolt dataclass fields produced by sizing (Bolt.py lines 41-42):
diameter and length are declared init=False and are unset (would raise
AttributeError if read) until the engine assigns them. -/
structure BoltState where
  diameter : Option ℚ
  length : Option ℚ
deriving DecidableEq, Repr

/-- How a run of Calculation.main fails in the model: unbounded recursion
(Python: RecursionError at the interpreter limit) in the diameter
verification, or in the length resolution. -/
inductive EngineErr where
  | checkRecursion
  | lengthRecursion
deriving DecidableEq, Repr

/-- Embeds Calculation.main (calculation.py lines 370-403) acting on the
bolt's dimension fields: d_temp, its standardization, yieldstress_min as
min([rod, fork, bolt]), the verification recursion, then
`self._bolt.diameter = d`, then set_length (which assigns length), as
state passing over BoltState. Returns the error (if any) and the bolt
state at the moment the run ends. -/
def mainRun (env : Env) (cin : CalcIn) (fuel : Nat) (b : BoltState) :
    Option EngineErr × BoltState :=
  let c := postInit cin
  let d_temp := calc_d_temp env c
  let d_std := env.oracle d_temp
  let yieldstress_min := min (min c.ys_rod c.ys_fork) c.ys_bolt
  match check env c yieldstress_min fuel d_std with
  | none => (some EngineErr.checkRecursion, b)
  | some d =>
      let b1 : BoltState := { b with diameter := some d }
      match setLength env c.n c.t_r c.t_f fuel 0 none with
      | none => (some EngineErr.lengthRecursion, b1)
      | some len => (none, { b1 with length := some len })

/-- Python dict assignment `dict[key] = v`: replaces the value of an existing
key in place, appends at the end otherwise. The report dict is modelled as
its insertion-ordered key/value list. -/
def setKey (key v : String) : List (String × String) → List (String × String)
  | [] => [(key, v)]
  | (k, w) :: rest =>
      if k = key then (key, v) :: rest else (k, w) :: setKey key v rest

/-- Embeds Calculation.report_dict (calculation.py lines 323-368): the dict
literal in source order, then the n == 1 override of "Connection Type:",
then the unconditional clamping-case override (Case 2 label when the case
is "Case 2", Case 3 label otherwise). `fmt` stands for Python's str() on a
float and `round2` for round(x, 2); the seven stress values are passed as
they sit in self._stresses[0..6]. -/
def reportDict (fmt : ℚ → String) (round2 : ℚ → ℚ) (c : CalcSt)
    (k_t s0 s1 s2 s3 s4 s5 s6 : ℚ) : List (String × String) :=
  let base := [("Resulting Force [N]:", fmt c.F_r),
    ("Safty Factor [-]:", fmt c.S),
    ("Application Factor [-]:", fmt c.K_A),
    ("Connection Type:", "double shear"),
    ("Load Type:", c.l_type),
    ("Clamping Case:", "Case 1 (loose fit in rod and fork)"),
    ("Load Factor Bending [-]:", fmt c.l.1),
    ("Load Factor Shear[-]:", fmt c.l.2.1),
    ("Load Factor Preassure [-]:", fmt c.l.2.2),
    ("Clamping Factor [-]:", fmt c.k),
    ("Size Factor [-]:", fmt k_t),
    ("Bending Moment [Nmm]:", fmt c.M_b),
    ("allowed Bending Stress [N/mm²]:", fmt s0),
    ("Bending Stress [N/mm²]:", fmt (round2 s1)),
    ("allowed Shear Stress [N/mm²]:", fmt s2),
    ("Shear Stress [N/mm²]:", fmt (round2 s3)),
    ("allowed Preassure [N/mm²]:", fmt s4),
    ("Preassure Fork [N/mm²]:", fmt (round2 s5)),
    ("Preassure Rod [N/mm²]:", fmt (round2 s6))]
  let base := if c.n = 1 then setKey "Connection Type:" "single shear" base else base
  if c.ccase = "Case 2" then
    setKey "Clamping Case:" "Case 2 (loose fit in rod and oversized fit in fork)" base
  else
    setKey "Clamping Case:" "Case 3 (oversized fit in rod and loose fit in fork)" base

/-- A concrete environment used to evaluate the embedding: log10 and sqrt
constantly 0, pi = 3, identity diameter oracle, length oracle stuck at 0. -/
def envZero : Env :=
  { log10 := fun _ => 0, sqrt := fun _ => 0, pi := 3,
    oracle := id, lenOracle := fun _ => 0 }

/-- A concrete environment whose diameter oracle always answers with the
positive standardized diameter 2, and whose length oracle is stuck at 0.
On the cinPass input every operation the run performs stays away from the
singular points of log10 and division (the only log10/sqrt calls are made
with results that the clamp, resp. the zero argument, pins to the same
value the Python functions return), so the modelled run coincides step for
step with the Python run. -/
def envPos : Env :=
  { log10 := fun _ => 0, sqrt := fun _ => 0, pi := 3,
    oracle := fun _ => 2, lenOracle := fun _ => 0 }

/-- A concrete input on which every safety check passes at once (K_A = 0
makes all actual stresses 0 while the allowed limits stay positive). -/
def cinPass : CalcIn :=
  { matType := .HEAT_TREATABLE_STEEL, ys_bolt := 1, l_type := "static",
    ccase := "Case 1", F_r := 0, t_r := 1, t_f := 1, n := 2, K_A := 0,
    S := 1, ys_rod := 1, ys_fork := 1 }

/-- A concrete input with a negative supplied resultant force. -/
def cinNeg : CalcIn :=
  { matType := .HEAT_TREATABLE_STEEL, ys_bolt := 1, l_type := "static",
    ccase := "Case 1", F_r := -1000, t_r := 40, t_f := 10, n := 2, K_A := 1,
    S := 1, ys_rod := 1, ys_fork := 1 }

/-- A concrete input on which the bending check fails at every diameter
(zero bolt yield stress makes the allowed limit 0 while the occurring
stress is 0, and 0/1 <= 0 holds): no oracle answer can ever pass. -/
def cinStuck : CalcIn :=
  { matType := .HEAT_TREATABLE_STEEL, ys_bolt := 0, l_type := "static",
    ccase := "Case 1", F_r := 0, t_r := 1, t_f := 1, n := 2, K_A := 1,
    S := 1, ys_rod := 0, ys_fork := 0 }

/-- A concrete valid material record. -/
def mSample : Material :=
  { name := "S235JR", matnr := "1.0038", density := 7850,
    tensilestrength := 360, yieldstress := 235, youngsmodulus := 210000,
    type := .STRUCTURAL_STEEL }
/-- C4: Calculation._calc_m_b implements the exact order-sensitive branch
table: Case 1 gives (F_r·(t_r+n·t_f)/8, 1.6) for every n; Case 2 with n=2
gives (F_r·t_r/8, 1.1); Case 2 with n=1 gives (F_r·t_r, 1.1); Case 3 with
n=2 gives (F_r·t_f, 1.1); every other (case, n) combination gives
(F_r·t_f, 1.1); and the two quoted numeric instances evaluate as claimed. -/
theorem C4_momentAndClamp_branch_table :
    (∀ (F_r t_r t_f : ℚ) (n : ℤ),
        calc_m_b "Case 1" F_r t_r t_f n = ((F_r * (t_r + (n : ℚ) * t_f)) / 8, 1.6)
      ∧ calc_m_b "Case 2" F_r t_r t_f 2 = ((F_r * t_r) / 8, 1.1)
      ∧ calc_m_b "Case 2" F_r t_r t_f 1 = (F_r * t_r, 1.1)
      ∧ calc_m_b "Case 3" F_r t_r t_f 2 = (F_r * t_f, 1.1))
  ∧ (∀ (ccase : String) (F_r t_r t_f : ℚ) (n : ℤ),
        ccase ≠ "Case 1" → ¬(ccase = "Case 2" ∧ (n = 2 ∨ n = 1)) →
        ¬(ccase = "Case 3" ∧ n = 2) →
        calc_m_b ccase F_r t_r t_f n = (F_r * t_f, 1.1))
  ∧ calc_m_b "Case 1" 1000 40 10 2 = (7500, 1.6)
  ∧ calc_m_b "Case 2" 1000 40 10 2 = (5000, 1.1) := by
  refine ⟨fun F_r t_r t_f n => ⟨?_, ?_, ?_, ?_⟩, ?_, ?_, ?_⟩
  · simp [calc_m_b]
  · simp [calc_m_b]
  · simp [calc_m_b]
  · simp [calc_m_b]
  · intro ccase F_r t_r t_f n h1 h2 h3
    have h2a : ¬(ccase = "Case 2" ∧ n = 2) := fun h => h2 ⟨h.1, Or.inl h.2⟩
    have h2b : ¬(ccase = "Case 2" ∧ n = 1) := fun h => h2 ⟨h.1, Or.inr h.2⟩
    simp only [calc_m_b, if_neg h1, if_neg h2a, if_neg h2b, if_neg h3]
  · show calc_m_b "Case 1" 1000 40 10 2 = (7500, 1.6)
    simp [calc_m_b]
    norm_num
  · show calc_m_b "Case 2" 1000 40 10 2 = (5000, 1.1)
    simp [calc_m_b]
    norm_num

/-- Witness for C4: the fallthrough clause applied at the concrete
combination ("Case 3", n = 1). -/
theorem C4_momentAndClamp_branch_table_witness :
    ("Case 3" : String) ≠ "Case 1"
  ∧ ¬(("Case 3" : String) = "Case 2" ∧ ((1 : ℤ) = 2 ∨ (1 : ℤ) = 1))
  ∧ ¬(("Case 3" : String) = "Case 3" ∧ (1 : ℤ) = 2)
  ∧ calc_m_b "Case 3" 5 6 7 1 = (5 * 7, 1.1) :=
  ⟨by decide, by decide, by decide,
   C4_momentAndClamp_branch_table.2.1 "Case 3" 5 6 7 1 (by decide) (by decide) (by decide)⟩

/-- The if/elif clamp of _calc_k_t written as max/min. -/
theorem clamp_eq_max_min (lo x : ℚ) (hlo : lo ≤ 1) :
    (if x > 1 then (1 : ℚ) else if x < lo then lo else x) = max lo (min 1 x) := by
  split_ifs with h1 h2
  · rw [min_eq_left h1.le, max_eq_right hlo]
  · rw [min_eq_right (by linarith), max_eq_left h2.le]
  · push_neg at h1 h2
    rw [min_eq_right h1, max_eq_right h2]

/-- C5: the size-correction factor is 1 − 0.41·log10(d/16) clamped to
[0.60, 1] for heat-treatable steel and 1 − 0.23·log10(d/100) clamped to
[0.89, 1] for structural and nitriding steel; with log10(1) = 0 it is
exactly 1 at d = 16 (heat-treatable) and d = 100 (structural). -/
theorem C5_size_correction_factor (env : Env) (d : ℚ) :
    calc_k_t env .HEAT_TREATABLE_STEEL d
        = max 0.60 (min 1 (1 - 0.41 * env.log10 (d / 16)))
  ∧ calc_k_t env .STRUCTURAL_STEEL d
        = max 0.89 (min 1 (1 - 0.23 * env.log10 (d / 100)))
  ∧ calc_k_t env .NITRIDING_STEEL d
        = max 0.89 (min 1 (1 - 0.23 * env.log10 (d / 100)))
  ∧ (env.log10 1 = 0 →
        calc_k_t env .HEAT_TREATABLE_STEEL 16 = 1
      ∧ calc_k_t env .STRUCTURAL_STEEL 100 = 1) := by
  have h89 : (0.89 : ℚ) ≤ 1 := by norm_num
  refine ⟨?_, ?_, ?_, fun hlog => ⟨?_, ?_⟩⟩
  · simp only [calc_k_t]
    exact clamp_eq_max_min 0.60 (1 - 0.41 * env.log10 (d / 16)) (by norm_num)
  · simp only [calc_k_t]
    exact clamp_eq_max_min 0.89 (1 - 0.23 * env.log10 (d / 100)) h89
  · simp only [calc_k_t]
    exact clamp_eq_max_min 0.89 (1 - 0.23 * env.log10 (d / 100)) h89
  · simp only [calc_k_t]
    norm_num [hlog]
  · simp only [calc_k_t]
    norm_num [hlog]

/-- Witness for C5: the hypothesis log10(1) = 0 discharged at the concrete
environment envZero. -/
theorem C5_size_correction_factor_witness :
    envZero.log10 1 = 0
  ∧ calc_k_t envZero .HEAT_TREATABLE_STEEL 16 = 1
  ∧ calc_k_t envZero .STRUCTURAL_STEEL 100 = 1 :=
  ⟨rfl, (C5_size_correction_factor envZero 0).2.2.2 rfl⟩

/-- C2: in a verification pass that reaches the pressure check (bending and
shear did not trigger), the pass bumps the diameter exactly when BOTH
allowed/S ≤ actual-fork AND allowed·S ≤ actual-rod hold, where
allowed = k_t · min(yield stresses of rod, fork, bolt) · l[2],
actual-fork = K_A·F_r/(d·n·t_f) and actual-rod = K_A·F_r/(d·t_r): the
safety factor divides on the fork side and multiplies on the rod side. -/
theorem C2_pressure_check_asymmetric (env : Env) (c : CalcSt) (d : ℚ)
    (hb : checkOnce env c (min (min c.ys_rod c.ys_fork) c.ys_bolt) d ≠ CheckOutcome.bendFail)
    (hs : checkOnce env c (min (min c.ys_rod c.ys_fork) c.ys_bolt) d ≠ CheckOutcome.shearFail) :
    checkOnce env c (min (min c.ys_rod c.ys_fork) c.ys_bolt) d = CheckOutcome.pressFail
      ↔ (calc_k_t env c.matType d * min (min c.ys_rod c.ys_fork) c.ys_bolt * c.l.2.2) / c.S
            ≤ c.K_A * c.F_r / (d * (c.n : ℚ) * c.t_f)
        ∧ (calc_k_t env c.matType d * min (min c.ys_rod c.ys_fork) c.ys_bolt * c.l.2.2) * c.S
            ≤ c.K_A * c.F_r / (d * c.t_r) := by
  simp only [checkOnce] at hb hs ⊢
  split_ifs at hb hs ⊢ with h1 h2 h3
  · exact absurd rfl hb
  · exact absurd rfl hs
  · exact iff_of_true rfl h3
  · exact iff_of_false (by simp) h3

/-- Witness for C2: the hypotheses discharged at a concrete passing input
(the pass reaches the pressure check and both margins fail to hold, so no
bump). -/
theorem C2_pressure_check_asymmetric_witness :
    checkOnce envZero (postInit cinPass)
        (min (min (postInit cinPass).ys_rod (postInit cinPass).ys_fork)
          (postInit cinPass).ys_bolt) 2 ≠ CheckOutcome.bendFail
  ∧ checkOnce envZero (postInit cinPass)
        (min (min (postInit cinPass).ys_rod (postInit cinPass).ys_fork)
          (postInit cinPass).ys_bolt) 2 ≠ CheckOutcome.shearFail
  ∧ (checkOnce envZero (postInit cinPass)
        (min (min (postInit cinPass).ys_rod (postInit cinPass).ys_fork)
          (postInit cinPass).ys_bolt) 2 = CheckOutcome.pressFail
      ↔ (calc_k_t envZero (postInit cinPass).matType 2
            * min (min (postInit cinPass).ys_rod (postInit cinPass).ys_fork)
                (postInit cinPass).ys_bolt * (postInit cinPass).l.2.2) / (postInit cinPass).S
            ≤ (postInit cinPass).K_A * (postInit cinPass).F_r
                / (2 * ((postInit cinPass).n : ℚ) * (postInit cinPass).t_f)
        ∧ (calc_k_t envZero (postInit cinPass).matType 2
            * min (min (postInit cinPass).ys_rod (postInit cinPass).ys_fork)
                (postInit cinPass).ys_bolt * (postInit cinPass).l.2.2) * (postInit cinPass).S
            ≤ (postInit cinPass).K_A * (postInit cinPass).F_r
                / (2 * (postInit cinPass).t_r)) :=
  by
  have h : checkOnce envZero (postInit cinPass)
      (min (min (postInit cinPass).ys_rod (postInit cinPass).ys_fork)
        (postInit cinPass).ys_bolt) 2 = CheckOutcome.allPass := by
    norm_num [checkOnce, calc_k_t, postInit, cinPass, envZero, calc_l, calc_m_b]
  exact ⟨by rw [h]; simp, by rw [h]; simp,
    C2_pressure_check_asymmetric envZero (postInit cinPass) 2
      (by rw [h]; simp) (by rw [h]; simp)⟩

/-- Counterexample for C3: with F_r supplied as -1000 (Case 1, t_r = 40,
t_f = 10, n = 2) the bending moment produced by __post_init__ is -7500,
not the 7500 obtained from |F_r| = 1000: the claim that momentAndClamp's
results equal those computed from |F_r| is false, because _calc_m_b is
invoked BEFORE the sign normalization. -/
theorem C3_moment_from_signed_force_counterexample :
    (postInit cinNeg).M_b = -7500
  ∧ (postInit { cinNeg with F_r := 1000 }).M_b = 7500
  ∧ ((-7500 : ℚ) ≠ 7500) := by
  refine ⟨?_, ?_, by norm_num⟩ <;>
    norm_num [postInit, cinNeg, calc_m_b, calc_l]

/-- C3 amended: __post_init__ stores |F_r| for all subsequent formulas, and
the clamping factor agrees with the one computed from |F_r| (it never
depends on the force), but the bending moment is computed from the force
AS SUPPLIED (before normalization), so a negative input yields the moment
of the signed force, not of its absolute value. -/
theorem C3_force_normalization_amended (cin : CalcIn) :
    (postInit cin).F_r = |cin.F_r|
  ∧ (postInit cin).k = (calc_m_b cin.ccase |cin.F_r| cin.t_r cin.t_f cin.n).2
  ∧ (postInit cin).M_b = (calc_m_b cin.ccase cin.F_r cin.t_r cin.t_f cin.n).1 := by
  have hk : ∀ (F F2 t_r t_f : ℚ) (n : ℤ),
      (calc_m_b cin.ccase F t_r t_f n).2 = (calc_m_b cin.ccase F2 t_r t_f n).2 := by
    intro F F2 t_r t_f n
    unfold calc_m_b
    split_ifs <;> rfl
  refine ⟨?_, ?_, rfl⟩
  · show (if cin.F_r < 0 then cin.F_r * (-1) else cin.F_r) = |cin.F_r|
    rcases lt_or_le cin.F_r 0 with h | h
    · rw [if_pos h, abs_of_neg h]; ring
    · rw [if_neg (not_lt.mpr h), abs_of_nonneg h]
  · exact hk cin.F_r |cin.F_r| cin.t_r cin.t_f cin.n

/-- Counterexample for C9: a Material with yield stress -5 (not > 0) is
constructed successfully — Material.__post_init__ validates only the
material-type field, so the claim that construction fails whenever the
yield stress is not positive is false. -/
theorem C9_yieldstress_not_validated_counterexample :
    mkMaterial "BadSteel" "1.0000" 7850 360 (-5) 210000
        (RawType.known MaterialType.STRUCTURAL_STEEL)
      = Except.ok { name := "BadSteel", matnr := "1.0000", density := 7850,
                    tensilestrength := 360, yieldstress := -5,
                    youngsmodulus := 210000, type := MaterialType.STRUCTURAL_STEEL }
  ∧ ¬((-5 : ℚ) > 0) :=
  ⟨rfl, by norm_num⟩

/-- C9 amended: construction succeeds exactly when the material-type is one
of the three enumerated variants (anything else raises MaterialTypeError),
and a successful construction stores every supplied field unchanged; the
yield stress (like every other numeric field) is NOT validated, so
non-positive values are accepted. -/
theorem C9_construction_invariant_amended (name matnr : String)
    (density tensilestrength yieldstress youngsmodulus : ℚ) (t : RawType) :
    ((∃ m, mkMaterial name matnr density tensilestrength yieldstress youngsmodulus t
        = Except.ok m) ↔ ∃ mt, t = RawType.known mt)
  ∧ (∀ mt, mkMaterial name matnr density tensilestrength yieldstress youngsmodulus
        (RawType.known mt)
      = Except.ok { name := name, matnr := matnr, density := density,
                    tensilestrength := tensilestrength, yieldstress := yieldstress,
                    youngsmodulus := youngsmodulus, type := mt }) := by
  refine ⟨⟨?_, ?_⟩, fun mt => rfl⟩
  · rintro ⟨m, hm⟩
    cases t with
    | known mt => exact ⟨mt, rfl⟩
    | other s => exact absurd hm (by simp [mkMaterial])
  · rintro ⟨mt, rfl⟩
    exact ⟨_, rfl⟩

/-- Parsing the row written for a material recovers the material exactly. -/
theorem deserialize_serialize (m : Material) :
    deserializeRow (serializeMat m) = Except.ok m := by
  obtain ⟨name, matnr, density, ts, ys, ym, mt⟩ := m
  cases mt <;> rfl

/-- C8: material persistence round-trips — if a .mat file loads successfully
as the list ms, then after saving a further Material m with mat_to_file the
file loads as ms with m appended, every field of m (name, material number,
density, tensile strength, yield stress, Young's modulus and type)
recovered exactly. -/
theorem C8_material_roundtrip (file : List MatRow) (ms : List Material) (m : Material)
    (h : matsFromFile file = Except.ok ms) :
    matsFromFile (matToFile file m) = Except.ok (ms ++ [m]) := by
  induction file generalizing ms with
  | nil =>
      simp only [matsFromFile] at h
      cases h
      simp [matToFile, matsFromFile, deserialize_serialize]
  | cons r rs ih =>
      cases hr : deserializeRow r with
      | error e => rw [matsFromFile, hr] at h; simp at h
      | ok m1 =>
          cases hrs : matsFromFile rs with
          | error e => rw [matsFromFile, hr, hrs] at h; simp at h
          | ok ms1 =>
              simp only [matsFromFile, hr, hrs, Except.ok.injEq] at h
              subst h
              have hrec := ih ms1 hrs
              simp only [matToFile, List.cons_append] at hrec ⊢
              simp only [matsFromFile, hr, hrec, List.cons_append]

/-- Witness for C8: round trip of a concrete material through an empty file. -/
theorem C8_material_roundtrip_witness :
    matsFromFile [] = Except.ok []
  ∧ matsFromFile (matToFile [] mSample) = Except.ok ([] ++ [mSample]) :=
  ⟨rfl, C8_material_roundtrip [] [] mSample rfl⟩

/-- Looking up a key after setKey always yields the freshly set value. -/
theorem lookup_setKey (key v : String) :
    ∀ l : List (String × String), ((setKey key v l).lookup key) = some v := by
  intro l
  induction l with
  | nil => simp [setKey]
  | cons p rest ih =>
      obtain ⟨k, w⟩ := p
      by_cases h : k = key
      · simp [setKey, h, List.lookup]
      · have hbeq : (key == k) = false := beq_false_of_ne (Ne.symm h)
        simp only [setKey, if_neg h, List.lookup, hbeq]
        exact ih

/-- C10: the report maps "Clamping Case:" for case "Case 1" to the Case 3
label — the dict literal's initial "Case 1 (loose fit in rod and fork)"
entry is unconditionally overwritten: "Case 2" yields the Case 2 label and
every other case value (including "Case 1") yields the Case 3 label. -/
theorem C10_report_clamping_case_label (fmt : ℚ → String) (round2 : ℚ → ℚ)
    (c : CalcSt) (k_t s0 s1 s2 s3 s4 s5 s6 : ℚ) :
    (c.ccase = "Case 1" →
      (reportDict fmt round2 c k_t s0 s1 s2 s3 s4 s5 s6).lookup "Clamping Case:"
        = some "Case 3 (oversized fit in rod and loose fit in fork)")
  ∧ (c.ccase = "Case 2" →
      (reportDict fmt round2 c k_t s0 s1 s2 s3 s4 s5 s6).lookup "Clamping Case:"
        = some "Case 2 (loose fit in rod and oversized fit in fork)")
  ∧ (c.ccase ≠ "Case 2" →
      (reportDict fmt round2 c k_t s0 s1 s2 s3 s4 s5 s6).lookup "Clamping Case:"
        = some "Case 3 (oversized fit in rod and loose fit in fork)") := by
  refine ⟨fun h1 => ?_, fun h2 => ?_, fun h2 => ?_⟩
  · rw [reportDict]
    rw [if_neg (by rw [h1]; decide)]
    exact lookup_setKey _ _ _
  · rw [reportDict, if_pos h2]
    exact lookup_setKey _ _ _
  · rw [reportDict, if_neg h2]
    exact lookup_setKey _ _ _

/-- Witness for C10: the clamping case "Case 1" at a concrete state maps to
the Case 3 label. -/
theorem C10_report_clamping_case_label_witness :
    (postInit cinPass).ccase = "Case 1"
  ∧ (reportDict (fun _ => "") id (postInit cinPass) 1 0 0 0 0 0 0 0).lookup "Clamping Case:"
      = some "Case 3 (oversized fit in rod and loose fit in fork)" :=
  ⟨rfl, (C10_report_clamping_case_label (fun _ => "") id (postInit cinPass)
      1 0 0 0 0 0 0 0).1 rfl⟩

/-- The trace of candidate diameters always starts with the diameter it was
started from. -/
theorem checkTrace_head (env : Env) (c : CalcSt) (ysmin : ℚ) :
    ∀ (fuel : Nat) (d : ℚ), (checkTrace env c ysmin fuel d).head? = some d := by
  intro fuel d
  cases fuel with
  | zero => rfl
  | succ fuel =>
      rw [checkTrace]
      cases checkOnce env c ysmin d <;> rfl

/-- C6: whenever the standard-size oracle returns a value ≥ its input and is
monotone non-decreasing, the sequence of candidate diameters visited by the
verification loop is strictly increasing at every bump (each failed check
moves from d to the standardization of d+1, which exceeds d), hence
non-decreasing overall. -/
theorem C6_candidate_diameters_increase (env : Env) (c : CalcSt) (ysmin : ℚ)
    (hup : ∀ x : ℚ, x ≤ env.oracle x) (hmono : Monotone env.oracle) :
    ∀ (fuel : Nat) (d : ℚ),
      List.Chain' (· < ·) (checkTrace env c ysmin fuel d)
      ∧ List.Pairwise (· ≤ ·) (checkTrace env c ysmin fuel d) := by
  have key : ∀ (fuel : Nat) (d : ℚ), List.Chain' (· < ·) (checkTrace env c ysmin fuel d) := by
    intro fuel
    induction fuel with
    | zero => intro d; simp [checkTrace]
    | succ fuel ih =>
        intro d
        rw [checkTrace]
        cases h : checkOnce env c ysmin d
        case allPass => simp
        all_goals
          refine List.chain'_cons'.mpr ⟨?_, ih (env.oracle (d + 1))⟩
        all_goals
          intro b hb
          rw [checkTrace_head] at hb
          cases hb
          calc d < d + 1 := lt_add_one d
            _ ≤ env.oracle (d + 1) := hup (d + 1)
  intro fuel d
  refine ⟨key fuel d, ?_⟩
  exact ((List.chain'_iff_pairwise).mp (key fuel d)).imp le_of_lt

/-- Witness for C6: the oracle hypotheses discharged for the identity oracle
at a concrete run. -/
theorem C6_candidate_diameters_increase_witness :
    (∀ x : ℚ, x ≤ envZero.oracle x)
  ∧ Monotone envZero.oracle
  ∧ List.Chain' (· < ·) (checkTrace envZero (postInit cinPass) 1 2 2) :=
  ⟨fun x => le_refl x, fun _ _ hab => hab,
   (C6_candidate_diameters_increase envZero (postInit cinPass) 1
      (fun x => le_refl x) (fun _ _ hab => hab) 2 2).1⟩

/-- On the stuck input every verification pass fails its very first
(bending) check, whatever diameter the oracle proposes and whatever the
minimal yield stress is: zero bolt yield stress gives allowed = 0 while the
occurring bending stress is 0, and 0/S ≤ 0 holds. -/
theorem checkOnce_cinStuck_bendFail (ysmin d : ℚ) :
    checkOnce envZero (postInit cinStuck) ysmin d = CheckOutcome.bendFail := by
  norm_num [checkOnce, calc_k_t, postInit, cinStuck, envZero, calc_l, calc_m_b]

/-- C1 evaluated against the code: the verification recursion of
Calculation._check and the retry recursion of Bolt.set_length have NO
iteration bound and no ExhaustedError exit. On an input whose checks can
never pass (and a length oracle that keeps answering 0) they return no
result at ANY recursion depth, and Calculation.main accordingly never
terminates normally — contradicting the claimed bounded
ExhaustedError-failure behaviour. -/
theorem C1_no_bound_no_exhausted_error :
    (∀ (ysmin : ℚ) (fuel : Nat) (d : ℚ),
        check envZero (postInit cinStuck) ysmin fuel d = none)
  ∧ (∀ (fuel : Nat) (i : ℤ) (last : Option ℚ),
        setLength envZero 2 1 1 fuel i last = none)
  ∧ (∀ (fuel : Nat) (b : BoltState),
        mainRun envZero cinStuck fuel b = (some EngineErr.checkRecursion, b)) := by
  have hcheck : ∀ (ysmin : ℚ) (fuel : Nat) (d : ℚ),
      check envZero (postInit cinStuck) ysmin fuel d = none := by
    intro ysmin fuel
    induction fuel with
    | zero => intro d; rfl
    | succ fuel ih =>
        intro d
        rw [check, checkOnce_cinStuck_bendFail]
        exact ih (envZero.oracle (d + 1))
  refine ⟨hcheck, ?_, ?_⟩
  · intro fuel
    induction fuel with
    | zero => intro i last; rfl
    | succ fuel ih =>
        intro i last
        rw [setLength]
        show (if (0 : ℚ) = 0 then _ else _) = none
        rw [if_pos rfl]
        exact ih (i + 1) _
  · intro fuel b
    have hc := hcheck
      (min (min (postInit cinStuck).ys_rod (postInit cinStuck).ys_fork)
        (postInit cinStuck).ys_bolt)
      fuel (envZero.oracle (calc_d_temp envZero (postInit cinStuck)))
    simp only [mainRun, hc]

/-- Every run of the embedded Calculation.main ends in one of exactly three
ways: full success (both dimensions assigned), stuck length resolution
(diameter already assigned, length untouched), or stuck diameter
verification (bolt state untouched). -/
theorem mainRun_cases (env : Env) (cin : CalcIn) (fuel : Nat) (b : BoltState) :
    (∃ d len, mainRun env cin fuel b
        = (none, { diameter := some d, length := some len }))
  ∨ (∃ d, mainRun env cin fuel b
        = (some EngineErr.lengthRecursion, { diameter := some d, length := b.length }))
  ∨ mainRun env cin fuel b = (some EngineErr.checkRecursion, b) := by
  simp only [mainRun]
  cases h1 : check env (postInit cin)
      (min (min (postInit cin).ys_rod (postInit cin).ys_fork) (postInit cin).ys_bolt)
      fuel (env.oracle (calc_d_temp env (postInit cin))) with
  | none => exact Or.inr (Or.inr rfl)
  | some d =>
      cases h2 : setLength env (postInit cin).n (postInit cin).t_r (postInit cin).t_f
          fuel 0 none with
      | none => exact Or.inr (Or.inl ⟨d, rfl⟩)
      | some len => exact Or.inl ⟨d, len, rfl⟩

/-- Counterexample for C7: a concrete engine run — standardized diameter 2
accepted by all three checks, then length resolution stuck on a length
oracle that keeps answering 0 — that raises an error with the bolt's
diameter field already set: the assignment `self._bolt.diameter = d` in
Calculation.main precedes set_length, so this failing run does NOT leave
the bolt dimensions unset. -/
theorem C7_failure_mutates_diameter_counterexample :
    mainRun envPos cinPass 1 { diameter := none, length := none }
      = (some EngineErr.lengthRecursion, { diameter := some 2, length := none })
  ∧ ({ diameter := some 2, length := none } : BoltState).diameter ≠ none := by
  refine ⟨?_, by simp⟩
  norm_num [mainRun, check, checkOnce, setLength, calc_d_temp, calc_k_t, postInit,
    cinPass, envPos, calc_l, calc_m_b]

/-- C7 amended: an engine failure never touches the bolt's length field; a
failure of the diameter-verification recursion leaves the whole bolt state
(diameter AND length) exactly as before the run, but a failure of the
length resolution happens after the final diameter has already been
assigned to the bolt, so only the length remains unset. -/
theorem C7_error_state_amended (env : Env) (cin : CalcIn) (fuel : Nat)
    (b : BoltState) (e : EngineErr)
    (h : (mainRun env cin fuel b).1 = some e) :
    (mainRun env cin fuel b).2.length = b.length
  ∧ (e = EngineErr.checkRecursion → (mainRun env cin fuel b).2 = b)
  ∧ (e = EngineErr.lengthRecursion → ∃ d, (mainRun env cin fuel b).2.diameter = some d) := by
  rcases mainRun_cases env cin fuel b with ⟨d, len, hM⟩ | ⟨d, hM⟩ | hM
  · rw [hM] at h
    simp at h
  · rw [hM] at h ⊢
    refine ⟨rfl, fun he => ?_, fun _ => ⟨d, rfl⟩⟩
    simp only [Option.some.injEq] at h
    rw [← h] at he
    exact absurd he (by simp)
  · rw [hM] at h ⊢
    refine ⟨rfl, fun _ => rfl, fun he => ?_⟩
    simp only [Option.some.injEq] at h
    rw [← h] at he
    exact absurd he (by simp)

/-- Witness for C7 amended: hypotheses discharged at the concrete failing
run of the counterexample input. -/
theorem C7_error_state_amended_witness :
    (mainRun envPos cinPass 1 { diameter := none, length := none }).1
        = some EngineErr.lengthRecursion
  ∧ ((mainRun envPos cinPass 1 { diameter := none, length := none }).2.length
        = ({ diameter := none, length := none } : BoltState).length
    ∧ (EngineErr.lengthRecursion = EngineErr.checkRecursion →
        (mainRun envPos cinPass 1 { diameter := none, length := none }).2
          = { diameter := none, length := none })
    ∧ (EngineErr.lengthRecursion = EngineErr.lengthRecursion →
        ∃ d, (mainRun envPos cinPass 1 { diameter := none, length := none }).2.diameter
          = some d)) :=
  ⟨by norm_num [mainRun, check, checkOnce, setLength, calc_d_temp, calc_k_t, postInit,
      cinPass, envPos, calc_l, calc_m_b],
   C7_error_state_amended envPos cinPass 1 { diameter := none, length := none }
     EngineErr.lengthRecursion
     (by norm_num [mainRun, check, checkOnce, setLength, calc_d_temp, calc_k_t, postInit,
        cinPass, envPos, calc_l, calc_m_b])⟩
